import Mathlib

/-!
Verification of the QuickLogic synthesis pipeline driver
(`ql-qlf-plugin/synth_quicklogic.cc`).

The pass is a Yosys `ScriptPass`: `execute` parses command-line flags into a
configuration, validates preconditions, and then runs `script`, which issues a
sequence of named transformation commands (strings) against the design,
checkpoint by checkpoint.  We embed the pass shallowly: a `Config` record for
the flag set, `script` as a pure function from the configuration and the
resume window to the list of command strings issued (in order), and `execute`
as a fallible function returning either a fatal error or the outcome of the run.

The embedding reproduces the real-execution mode of the source; the
documentation mode (`help_mode`) only prints and issues no commands, so the
`help_mode ? ... : ...` alternatives are resolved to their real-execution arm.

Note on the source, line 297: the checkpoint guard of `map_dsp` is written
`if (check_label("map_dsp"), "(skip if -no_dsp)")`.  In C++ the comma
operator discards the `check_label` result and the condition is the (always
non-null) string literal, hence always true: the `map_dsp` body is executed
regardless of the resume window.  The embedding reproduces this faithfully.
-/

/-- Checkpoint labels of the pipeline, in their fixed total order (the order
in which `script` tests them). -/
def checkpointOrder : List String :=
  ["begin", "prepare", "map_dsp", "coarse", "map_bram", "map_ffram", "map_gates",
   "map_ffs", "map_luts", "map_cells", "check", "iomap", "finalize", "blif",
   "edif", "verilog"]

/-- Modelled from the spec: the checkpoint engine (`ScriptPass::check_label` /
`run_script`, part of the host toolkit, not among the sources of this repository)
resolves the resume window once from the optional pair and then tests each
checkpoint for membership: the window is inclusive at both ends, an empty
"from" defaults to the first checkpoint and an empty "to" to the last
(spec section 3, "Resume window", and section 4.3).  A "from" label naming no
checkpoint selects nothing; a "to" label naming no checkpoint runs to the
end. -/
def inWindow (run_from run_to lbl : String) : Bool :=
  let n := checkpointOrder.length
  let li := checkpointOrder.indexOf lbl
  let lo := if run_from = "" then 0 else checkpointOrder.indexOf run_from
  let hi := if run_to = "" then n - 1 else min (checkpointOrder.indexOf run_to) (n - 1)
  decide (lo ≤ li ∧ li ≤ hi)

/-- Splits a character list at the first colon, if any: the model of
`std::string::find` on the colon character followed by the two `substr` calls in
`SynthQuickLogicPass::execute` (source lines 144-151). -/
def splitAtColon : List Char → Option (List Char × List Char)
  | [] => none
  | c :: rest =>
    if c = ':' then some ([], rest)
    else
      match splitAtColon rest with
      | none => none
      | some (u, v) => some (c :: u, v)

/-- Parse of the `-run` argument (source lines 144-151): with no colon both
window ends are the whole argument; with a colon, the part before the first
colon and everything after it. -/
def parseRunArg (s : String) : String × String :=
  match splitAtColon s.data with
  | none => (s, s)
  | some (u, v) => (⟨u⟩, ⟨v⟩)

/-- Configuration of one pass invocation: the member variables of
`SynthQuickLogicPass` (source lines 106-114). -/
structure Config where
  top_opt : String
  edif_file : String
  blif_file : String
  family : String
  currmodule : String
  verilog_file : String
  use_dsp_cfg_params : String
  lib_path : String
  nodsp : Bool
  inferAdder : Bool
  inferBram : Bool
  bramTypes : Bool
  abcOpt : Bool
  abc9 : Bool
  noffmap : Bool
  nosdff : Bool

/-- Defaults set by `clear_flags` (source lines 116-134).  `currmodule` is
cleared here and assigned nowhere else in the pass. -/
def clearFlags : Config :=
  { top_opt := "-auto-top"
    edif_file := ""
    blif_file := ""
    verilog_file := ""
    currmodule := ""
    family := "qlf_k4n8"
    inferAdder := true
    inferBram := true
    bramTypes := false
    abcOpt := true
    abc9 := true
    noffmap := false
    nodsp := false
    nosdff := false
    use_dsp_cfg_params := ""
    lib_path := "+/quicklogic/" }

/-- One DSP multiplier-recognition rule (source lines 318-324). -/
structure DspParams where
  a_maxwidth : Nat
  b_maxwidth : Nat
  a_minwidth : Nat
  b_minwidth : Nat
  type : String

/-- The rule list for `qlf_k6n10f` (source lines 326-329). -/
def dsp_rules : List DspParams :=
  [{ a_maxwidth := 20, b_maxwidth := 18, a_minwidth := 11, b_minwidth := 10, type := "$__QL_MUL20X18" },
   { a_maxwidth := 10, b_maxwidth := 9, a_minwidth := 4, b_minwidth := 4, type := "$__QL_MUL10X9" }]

/-- Command built from one DSP rule (source lines 350-354). -/
def dspRuleCmd (r : DspParams) : String :=
  "techmap -map +/mul2dsp.v -D DSP_A_MAXWIDTH=" ++ toString r.a_maxwidth ++
    " -D DSP_B_MAXWIDTH=" ++ toString r.b_maxwidth ++
    " -D DSP_A_MINWIDTH=" ++ toString r.a_minwidth ++
    " -D DSP_B_MINWIDTH=" ++ toString r.b_minwidth ++
    " -D DSP_NAME=" ++ r.type

/-- Data-width domain of the non-split BRAM variant loops (source lines
403-404 and 440-441); the loop variables are C `int`s holding these
positive literals, so `Nat` carries them faithfully. -/
def dwidths : List Nat := [1, 2, 4, 9, 18, 36]

/-- Data-width domain of the split BRAM variant loops (source lines 420-423
and 448-451). -/
def dwidthsSplit : List Nat := [1, 2, 4, 9, 18]

/-- Non-split plain-BRAM re-typing command (source lines 405-407). -/
def bramNonsplitCmd (a b : Nat) : String :=
  "chtype -set TDP36K_BRAM_A_X" ++ toString a ++ "_B_X" ++ toString b ++
    "_nonsplit t:TDP36K a:is_inferred=0 %i a:is_fifo=0 %i a:port_a_dwidth=" ++ toString a ++
    " %i a:port_b_dwidth=" ++ toString b ++ " %i"

/-- Non-split asynchronous-FIFO re-typing command (source lines 409-412). -/
def fifoAsyncNonsplitCmd (a b : Nat) : String :=
  "chtype -set TDP36K_FIFO_ASYNC_A_X" ++ toString a ++ "_B_X" ++ toString b ++
    "_nonsplit t:TDP36K a:is_inferred=0 %i a:is_fifo=1 %i a:sync_fifo=0 %i " ++
    "a:port_a_dwidth=" ++ toString a ++ " %i a:port_b_dwidth=" ++ toString b ++ " %i"

/-- Non-split synchronous-FIFO re-typing command (source lines 414-417). -/
def fifoSyncNonsplitCmd (a b : Nat) : String :=
  "chtype -set TDP36K_FIFO_SYNC_A_X" ++ toString a ++ "_B_X" ++ toString b ++
    "_nonsplit t:TDP36K a:is_inferred=0 %i a:is_fifo=1 %i a:sync_fifo=1 %i " ++
    "a:port_a_dwidth=" ++ toString a ++ " %i a:port_b_dwidth=" ++ toString b ++ " %i"

/-- Split plain-BRAM re-typing command (source lines 424-426). -/
def bramSplitCmd (a1 b1 a2 b2 : Nat) : String :=
  "chtype -set TDP36K_BRAM_A1_X" ++ toString a1 ++ "_B1_X" ++ toString b1 ++ "_A2_X" ++
    toString a2 ++ "_B2_X" ++ toString b2 ++
    "_split t:TDP36K a:is_inferred=0 %i a:is_split=1 %i a:is_fifo=0 %i a:port_a1_dwidth=" ++
    toString a1 ++ " %i a:port_b1_dwidth=" ++ toString b1 ++ " %i a:port_a2_dwidth=" ++
    toString a2 ++ " %i a:port_b2_dwidth=" ++ toString b2 ++ " %i"

/-- Split asynchronous-FIFO re-typing command (source lines 428-431). -/
def fifoAsyncSplitCmd (a1 b1 a2 b2 : Nat) : String :=
  "chtype -set TDP36K_FIFO_ASYNC_A1_X" ++ toString a1 ++ "_B1_X" ++ toString b1 ++ "_A2_X" ++
    toString a2 ++ "_B2_X" ++ toString b2 ++
    "_split t:TDP36K a:is_inferred=0 %i a:is_split=1 %i a:is_fifo=1 %i a:sync_fifo=0 %i " ++
    "a:port_a1_dwidth=" ++ toString a1 ++ " %i a:port_b1_dwidth=" ++ toString b1 ++
    " %i a:port_a2_dwidth=" ++ toString a2 ++ " %i a:port_b2_dwidth=" ++ toString b2 ++ " %i"

/-- Split synchronous-FIFO re-typing command (source lines 433-436). -/
def fifoSyncSplitCmd (a1 b1 a2 b2 : Nat) : String :=
  "chtype -set TDP36K_FIFO_SYNC_A1_X" ++ toString a1 ++ "_B1_X" ++ toString b1 ++ "_A2_X" ++
    toString a2 ++ "_B2_X" ++ toString b2 ++
    "_split t:TDP36K a:is_inferred=0 %i a:is_split=1 %i a:is_fifo=1 %i a:sync_fifo=1 %i " ++
    "a:port_a1_dwidth=" ++ toString a1 ++ " %i a:port_b1_dwidth=" ++ toString b1 ++
    " %i a:port_a2_dwidth=" ++ toString a2 ++ " %i a:port_b2_dwidth=" ++ toString b2 ++ " %i"

/-- Inferred non-split re-typing command (source lines 442-445). -/
def bramInferredNonsplitCmd (a b : Nat) : String :=
  "chtype -set TDP36K_BRAM_A_X" ++ toString a ++ "_B_X" ++ toString b ++
    "_nonsplit t:TDP36K a:is_inferred=1 %i a:port_a_width=" ++ toString a ++
    " %i a:port_b_width=" ++ toString b ++ " %i"

/-- Inferred split re-typing command (source lines 452-455). -/
def bramInferredSplitCmd (a1 b1 a2 b2 : Nat) : String :=
  "chtype -set TDP36K_BRAM_A1_X" ++ toString a1 ++ "_B1_X" ++ toString b1 ++ "_A2_X" ++
    toString a2 ++ "_B2_X" ++ toString b2 ++
    "_split t:TDP36K a:is_inferred=1 %i a:port_a1_width=" ++ toString a1 ++
    " %i a:port_b1_width=" ++ toString b1 ++ " %i a:port_a2_width=" ++ toString a2 ++
    " %i a:port_b2_width=" ++ toString b2 ++ " %i"

/-- First loop nest of the `-bram_types` enumeration (source lines 403-418):
non-split variants, 6 x 6 width pairs, three commands each. -/
def chtypeBlock1 : List String :=
  (dwidths.map fun a => (dwidths.map fun b =>
    [bramNonsplitCmd a b, fifoAsyncNonsplitCmd a b, fifoSyncNonsplitCmd a b]).flatten).flatten

/-- Second loop nest (source lines 420-437): split variants, 5^4 width
quadruples, three commands each. -/
def chtypeBlock2 : List String :=
  (dwidthsSplit.map fun a1 => (dwidthsSplit.map fun b1 => (dwidthsSplit.map fun a2 =>
    (dwidthsSplit.map fun b2 =>
      [bramSplitCmd a1 b1 a2 b2, fifoAsyncSplitCmd a1 b1 a2 b2,
       fifoSyncSplitCmd a1 b1 a2 b2]).flatten).flatten).flatten).flatten

/-- Third loop nest (source lines 440-446): inferred non-split variants,
6 x 6 width pairs, one command each. -/
def chtypeBlock3 : List String :=
  (dwidths.map fun a => (dwidths.map fun b =>
    [bramInferredNonsplitCmd a b]).flatten).flatten

/-- Fourth loop nest (source lines 448-456): inferred split variants, 5^4
width quadruples, one command each. -/
def chtypeBlock4 : List String :=
  (dwidthsSplit.map fun a1 => (dwidthsSplit.map fun b1 => (dwidthsSplit.map fun a2 =>
    (dwidthsSplit.map fun b2 =>
      [bramInferredSplitCmd a1 b1 a2 b2]).flatten).flatten).flatten).flatten

/-- Whole `-bram_types` enumeration, in source order (lines 401-457). -/
def bramTypesCmds : List String :=
  chtypeBlock1 ++ chtypeBlock2 ++ chtypeBlock3 ++ chtypeBlock4

/-- Derived flip-flop argument fragment.  The source accumulates it into the
local `noDFFArgs` inside the `prepare` block (lines 280-285): first the
`-nosdff` part, then the `-nodffe` part for `qlf_k4n8`. -/
def noDFFFrag (cfg : Config) : String :=
  (if cfg.nosdff then " -nosdff" else "") ++
    (if cfg.family == "qlf_k4n8" then " -nodffe" else "")

/-- Commands of the `begin` checkpoint (source lines 250-268). -/
def beginCmds (cfg : Config) : List String :=
  let family_path := " " ++ cfg.lib_path ++ cfg.family
  let readVelArgs :=
    family_path ++ "/cells_sim.v" ++
      (if cfg.family == "qlf_k6n10f" then
        family_path ++ "/dsp_sim.v" ++ family_path ++ "/brams_sim.v" ++
          (if cfg.bramTypes then family_path ++ "/bram_types_sim.v" else "")
      else "")
  ["read_verilog -lib -specify -nomem2reg " ++ cfg.lib_path ++ "common/cells_sim.v" ++ readVelArgs,
   "hierarchy -check " ++ cfg.top_opt]

/-- Commands of the `prepare` checkpoint (source lines 270-295); `noDFFArgs`
is the accumulator value after the appends at lines 280-285. -/
def prepareCmds (cfg : Config) (noDFFArgs : String) : List String :=
  ["proc", "flatten"] ++
    (if cfg.family == "pp3" then ["tribuf -logic"] else []) ++
    ["deminout", "opt_expr", "opt_clean", "check", "opt -nodffe -nosdff", "fsm",
     "opt" ++ noDFFArgs, "wreduce", "peepopt", "opt_clean", "share"]

/-- Commands of the `map_dsp` checkpoint body (source lines 297-365), real
mode.  Both branches are guarded by the family test and by `!nodsp`. -/
def mapDspCmds (cfg : Config) : List String :=
  (if cfg.family == "qlf_k6n10" then
    (if cfg.nodsp then [] else
      ["memory_dff", "wreduce t:$mul",
       "techmap -map +/mul2dsp.v -map " ++ cfg.lib_path ++ cfg.family ++
         "/dsp_map.v -D DSP_A_MAXWIDTH=16 -D DSP_B_MAXWIDTH=16 " ++
         "-D DSP_A_MINWIDTH=2 -D DSP_B_MINWIDTH=2 -D DSP_Y_MINWIDTH=11 " ++
         "-D DSP_NAME=$__MUL16X16",
       "select a:mul2dsp", "setattr -unset mul2dsp", "opt_expr -fine", "wreduce",
       "select -clear", "ql_dsp", "chtype -set $mul t:$__soft_mul"])
  else []) ++
  (if cfg.family == "qlf_k6n10f" then
    (if cfg.nodsp then [] else
      ["wreduce t:$mul", "ql_dsp_macc" ++ cfg.use_dsp_cfg_params] ++
        (dsp_rules.map fun r => [dspRuleCmd r, "chtype -set $mul t:$__soft_mul"]).flatten ++
        [(if cfg.use_dsp_cfg_params == "" then
            "techmap -map " ++ cfg.lib_path ++ cfg.family ++ "/dsp_map.v -D USE_DSP_CFG_PARAMS=0"
          else
            "techmap -map " ++ cfg.lib_path ++ cfg.family ++ "/dsp_map.v -D USE_DSP_CFG_PARAMS=1"),
         "ql_dsp_simd",
         "techmap -map " ++ cfg.lib_path ++ cfg.family ++ "/dsp_final_map.v",
         "ql_dsp_io_regs"])
  else [])

/-- Commands of the `coarse` checkpoint (source lines 368-377). -/
def coarseCmds (noDFFArgs : String) : List String :=
  ["techmap -map +/cmp2lut.v -D LUT_WIDTH=4", "opt_expr", "opt_clean", "alumacc",
   "pmuxtree", "opt" ++ noDFFArgs, "memory -nomap", "opt_clean"]

/-- Commands of the `map_bram` checkpoint body (source lines 379-458); the
checkpoint itself is additionally guarded by family membership and
`inferBram` (line 379). -/
def mapBramCmds (cfg : Config) : List String :=
  (if cfg.family == "qlf_k6n10f" then
    ["memory_libmap -lib " ++ cfg.lib_path ++ cfg.family ++ "/libmap_brams.txt",
     "ql_bram_merge",
     "techmap -map " ++ cfg.lib_path ++ cfg.family ++ "/libmap_brams_map.v"]
  else []) ++
  (if cfg.family == "qlf_k6n10" || cfg.family == "pp3" then
    ["memory_bram -rules " ++ cfg.lib_path ++ cfg.family ++ "/brams.txt"]
  else []) ++
  (if cfg.family == "pp3" then ["pp3_braminit"] else []) ++
  ["techmap -autoproc -map " ++ cfg.lib_path ++ cfg.family ++ "/brams_map.v"] ++
  (if cfg.family == "qlf_k6n10f" then
    ["techmap -map " ++ cfg.lib_path ++ cfg.family ++ "/brams_final_map.v"]
  else []) ++
  (if cfg.bramTypes then bramTypesCmds else [])

/-- Commands of the `map_ffram` checkpoint (source lines 460-466). -/
def mapFframCmds (noDFFArgs : String) : List String :=
  ["opt -fast -mux_undef -undriven -fine" ++ noDFFArgs,
   "memory_map -iattr -attr !ram_block -attr !rom_block -attr logic_block " ++
     "-attr syn_ramstyle=auto -attr syn_ramstyle=registers " ++
     "-attr syn_romstyle=auto -attr syn_romstyle=logic",
   "opt -undriven -fine" ++ noDFFArgs]

/-- Commands of the `map_gates` checkpoint (source lines 468-482). -/
def mapGatesCmds (cfg : Config) (noDFFArgs : String) : List String :=
  (if cfg.inferAdder &&
      (cfg.family == "qlf_k4n8" || cfg.family == "qlf_k6n10" || cfg.family == "qlf_k6n10f") then
    ["techmap -map +/techmap.v -map " ++ cfg.lib_path ++ cfg.family ++ "/arith_map.v"]
  else ["techmap"]) ++
  ["opt -fast" ++ noDFFArgs] ++
  (if cfg.family == "pp3" then ["muxcover -mux8 -mux4"] else []) ++
  ["opt_expr", "opt_merge", "opt_clean", "opt" ++ noDFFArgs]

/-- Commands of the `map_ffs` checkpoint (source lines 484-524). -/
def mapFfsCmds (cfg : Config) (noDFFArgs : String) : List String :=
  ["opt_expr"] ++
  (if cfg.family == "qlf_k4n8" then
    ["shregmap -minlen 8 -maxlen 8",
     "dfflegalize -cell $_DFF_P_ 0 -cell $_DFF_P??_ 0 -cell $_DFF_N_ 0 -cell $_DFF_N??_ 0 -cell $_DFFSR_???_ 0"]
  else if cfg.family == "qlf_k6n10" then
    ["dfflegalize -cell $_DFF_P_ 0 -cell $_DFF_PP?_ 0 -cell $_DFFE_PP?P_ 0 -cell $_DFFSR_PPP_ 0 -cell $_DFFSRE_PPPP_ 0 -cell " ++
       "$_DLATCHSR_PPP_ 0"]
  else if cfg.family == "qlf_k6n10f" then
    ["shregmap -minlen 8 -maxlen 20",
     "dfflegalize" ++
       (" -cell $_DFFSRE_?NNP_ 0 -cell $_DLATCHSR_?NN_ 0 -cell $_DLATCH_?_ 0" ++
         (if !cfg.nosdff then " -cell $_SDFFE_?N?P_ 0" else ""))]
  else if cfg.family == "pp3" then
    ["dfflegalize -cell $_DFFSRE_PPPP_ 0 -cell $_DLATCH_?_ x",
     "techmap -map " ++ cfg.lib_path ++ cfg.family ++ "/cells_map.v"]
  else []) ++
  (if !cfg.noffmap then
    ["techmap " ++ (" -map +/techmap.v -map " ++ cfg.lib_path ++ cfg.family ++ "/ffs_map.v")]
  else []) ++
  (if cfg.family == "pp3" then ["opt_expr -mux_undef"] else []) ++
  ["opt_merge", "opt_clean", "opt" ++ noDFFArgs]

/-- Commands of the `map_luts` checkpoint (source lines 526-567).  The
`rewrite_filename` call on `lutDefs` is a host facility rewriting the
library-path prefix for file access; it is modelled as the identity, which
only affects the literal text of the `pp3` non-abc9 script argument. -/
def mapLutsCmds (cfg : Config) : List String :=
  (if cfg.abcOpt then
    (if cfg.family == "qlf_k6n10" || cfg.family == "qlf_k6n10f" then
      (if cfg.abc9 then
        ["read_verilog -lib -specify -icells +/quicklogic/pp3/abc9_model.v",
         "abc9 -maxlut 6"]
      else ["abc -lut 6 "])
    else []) ++
    (if cfg.family == "qlf_k4n8" then ["abc -lut 4 "] else []) ++
    (if cfg.family == "pp3" then
      ["techmap -map " ++ cfg.lib_path ++ cfg.family ++ "/latches_map.v"] ++
        (if cfg.abc9 then
          ["read_verilog -lib -specify -icells " ++ cfg.lib_path ++ cfg.family ++ "/abc9_model.v",
           "techmap -map " ++ cfg.lib_path ++ cfg.family ++ "/abc9_map.v",
           "abc9 -maxlut 4 -dff",
           "techmap -map " ++ cfg.lib_path ++ cfg.family ++ "/abc9_unmap.v"]
        else
          ["abc -script " ++
            ("+read_lut," ++ ("" ++ cfg.lib_path ++ cfg.family ++ "/lutdefs.txt") ++ ";" ++
              "strash;ifraig;scorr;dc2;dretime;strash;dch,-f;if;mfs2;" ++
              "sweep;eliminate;if;mfs;lutpack;" ++ "dress")])
    else [])
  else []) ++
  ["clean", "opt_lut"]

/-- Commands of the `map_cells` checkpoint body (source lines 569-574); the
checkpoint itself is additionally guarded by the family test (line 569). -/
def mapCellsCmds (cfg : Config) : List String :=
  ["techmap " ++ ("-map " ++ cfg.lib_path ++ cfg.family ++ "/lut_map.v"), "clean"]

/-- Commands of the `check` checkpoint (source lines 576-581). -/
def checkCmds : List String :=
  ["autoname", "hierarchy -check", "stat", "check -noinit"]

/-- Commands of the `iomap` checkpoint body (source lines 583-586). -/
def iomapCmds : List String :=
  ["clkbufmap -inpad ckpad Q:P",
   "iopadmap -bits -outpad outpad A:P -inpad inpad Q:P -tinoutpad bipad EN:Q:A:P A:top"]

/-- Commands of the `finalize` checkpoint (source lines 588-598). -/
def finalizeCmds (cfg : Config) : List String :=
  (if cfg.family == "pp3" then ["setundef -zero -params -undriven"] else []) ++
  (if cfg.family == "pp3" || cfg.edif_file != "" then
    ["hilomap -hicell logic_1 a -locell logic_0 a -singleton A:top"]
  else []) ++
  ["opt_clean -purge", "check", "blackbox =A:whitebox"]

/-- Commands of the `blif` checkpoint (source lines 600-604). -/
def blifCmds (cfg : Config) : List String :=
  if cfg.blif_file != "" then ["write_blif -param " ++ cfg.blif_file] else []

/-- Commands of the `edif` checkpoint body (source lines 606-611); the
checkpoint itself is additionally guarded by `!edif_file.empty()` (line
606).  The writer receives `this->currmodule` as its module argument. -/
def edifCmds (cfg : Config) : List String :=
  ["splitnets -ports -format ()", "quicklogic_eqn",
   "write_ql_edif -nogndvcc -attrprop -pvector par " ++ cfg.currmodule ++ " " ++ cfg.edif_file]

/-- Commands of the `verilog` checkpoint (source lines 613-617). -/
def verilogCmds (cfg : Config) : List String :=
  if cfg.verilog_file != "" then ["write_verilog -noattr -nohex " ++ cfg.verilog_file] else []

/-- The script body (source lines 243-618), real-execution mode: the list of
commands issued against the design for one `run_script` invocation with the
given resume window.  The `map_dsp` body appears unconditionally because of
the comma operator in its guard (source line 297, see the header comment).
The `noDFFArgs` accumulator receives its appends only when the `prepare`
checkpoint is in the window, since the appends are part of the body of that block (source lines 280-285). -/
def script (cfg : Config) (run_from run_to : String) : List String :=
  let noDFFArgs := if inWindow run_from run_to ("prepare") then "" ++ noDFFFrag cfg else ""
  (if inWindow run_from run_to ("begin") then beginCmds cfg else []) ++
  (if inWindow run_from run_to ("prepare") then prepareCmds cfg noDFFArgs else []) ++
  mapDspCmds cfg ++
  (if inWindow run_from run_to ("coarse") then coarseCmds noDFFArgs else []) ++
  (if inWindow run_from run_to ("map_bram") &&
      (cfg.family == "qlf_k6n10" || cfg.family == "qlf_k6n10f" || cfg.family == "pp3") &&
      cfg.inferBram then mapBramCmds cfg else []) ++
  (if inWindow run_from run_to ("map_ffram") then mapFframCmds noDFFArgs else []) ++
  (if inWindow run_from run_to ("map_gates") then mapGatesCmds cfg noDFFArgs else []) ++
  (if inWindow run_from run_to ("map_ffs") then mapFfsCmds cfg noDFFArgs else []) ++
  (if inWindow run_from run_to ("map_luts") then mapLutsCmds cfg else []) ++
  (if inWindow run_from run_to ("map_cells") &&
      (cfg.family == "qlf_k6n10" || cfg.family == "pp3") then mapCellsCmds cfg else []) ++
  (if inWindow run_from run_to ("check") then checkCmds else []) ++
  (if inWindow run_from run_to ("iomap") && cfg.family == "pp3" then iomapCmds else []) ++
  (if inWindow run_from run_to ("finalize") then finalizeCmds cfg else []) ++
  (if inWindow run_from run_to ("blif") then blifCmds cfg else []) ++
  (if inWindow run_from run_to ("edif") && cfg.edif_file != "" then edifCmds cfg else []) ++
  (if inWindow run_from run_to ("verilog") then verilogCmds cfg else [])

/-- Result of the argument-parsing loop of `execute` (source lines 142-213):
the updated configuration, the resume window, and the arguments left for
`extra_args` (the loop `break`s at the first unrecognized argument). -/
structure ParseResult where
  cfg : Config
  run_from : String
  run_to : String
  rest : List String

/-- The argument-parsing loop of `execute` (source lines 142-213).  An option
that requires a value but appears last falls through every test and breaks
out of the loop, like in the source. -/
def parseLoop : List String → Config → String → String → ParseResult
  | [], cfg, rf, rt => ⟨cfg, rf, rt, []⟩
  | "-run" :: v :: rest, cfg, _, _ =>
    let p := parseRunArg v
    parseLoop rest cfg p.1 p.2
  | "-top" :: v :: rest, cfg, rf, rt => parseLoop rest { cfg with top_opt := "-top " ++ v } rf rt
  | "-edif" :: v :: rest, cfg, rf, rt => parseLoop rest { cfg with edif_file := v } rf rt
  | "-family" :: v :: rest, cfg, rf, rt => parseLoop rest { cfg with family := v } rf rt
  | "-blif" :: v :: rest, cfg, rf, rt => parseLoop rest { cfg with blif_file := v } rf rt
  | "-verilog" :: v :: rest, cfg, rf, rt => parseLoop rest { cfg with verilog_file := v } rf rt
  | "-no_dsp" :: rest, cfg, rf, rt => parseLoop rest { cfg with nodsp := true } rf rt
  | "-use_dsp_cfg_params" :: rest, cfg, rf, rt =>
    parseLoop rest { cfg with use_dsp_cfg_params := " -use_dsp_cfg_params" } rf rt
  | "-no_adder" :: rest, cfg, rf, rt => parseLoop rest { cfg with inferAdder := false } rf rt
  | "-no_bram" :: rest, cfg, rf, rt => parseLoop rest { cfg with inferBram := false } rf rt
  | "-bram_types" :: rest, cfg, rf, rt => parseLoop rest { cfg with bramTypes := true } rf rt
  | "-no_abc_opt" :: rest, cfg, rf, rt => parseLoop rest { cfg with abcOpt := false } rf rt
  | "-no_abc9" :: rest, cfg, rf, rt => parseLoop rest { cfg with abc9 := false } rf rt
  | "-no_ff_map" :: rest, cfg, rf, rt => parseLoop rest { cfg with noffmap := true } rf rt
  | "-nosdff" :: rest, cfg, rf, rt => parseLoop rest { cfg with nosdff := true } rf rt
  | other, cfg, rf, rt => ⟨cfg, rf, rt, other⟩

/-- Outcome of a successful `execute`: the resolved configuration, the final
value of the `abc9.D` scratch parameter, whether the delay-target warning was
emitted, and the commands issued by the script. -/
structure ExecOutcome where
  cfg : Config
  abc9D : Int
  warned : Bool
  cmds : List String

/-- The entry controller `SynthQuickLogicPass::execute` (source lines
136-241).  Inputs besides the argument vector: whether the design is fully
selected, the current `abc9.D` scratch value (`scratchpad_get_int` returns 0
when the key is unset, so 0 stands for "unset"), and the optional
`ql.lib_path` scratch string.  `extra_args` is a host facility; modelled
from the spec: the tokenizer is an external collaborator, and arguments the
loop did not consume are a fatal parse error here. -/
def initialCfg (scratchLib : Option String) : Config :=
  { clearFlags with lib_path := scratchLib.getD clearFlags.lib_path }

/-- Per-family default override (source lines 226-228): `qlf_k4n8` forces
the `nosdff` toggle on regardless of the parsed value. -/
def resolveCfg (c : Config) : Config :=
  if c.family == "qlf_k4n8" then { c with nosdff := true } else c

def execute (args : List String) (fullSelection : Bool) (abc9D : Int)
    (scratchLib : Option String) : Except String ExecOutcome :=
  let p := parseLoop args (initialCfg scratchLib) "" ""
  if !p.rest.isEmpty then
    Except.error ("extra_args: unrecognized argument")
  else if !fullSelection then
    Except.error ("This command only operates on fully selected designs!\n")
  else if p.cfg.family != "pp3" && p.cfg.family != "qlf_k4n8" &&
      p.cfg.family != "qlf_k6n10" && p.cfg.family != "qlf_k6n10f" then
    Except.error ("Invalid family specified: \x27" ++ p.cfg.family ++ "\x27\n")
  else
    Except.ok ⟨resolveCfg p.cfg,
      (if (resolveCfg p.cfg).abc9 && abc9D == 0 then 500 else abc9D),
      (resolveCfg p.cfg).abc9 && abc9D == 0,
      script (resolveCfg p.cfg) p.run_from p.run_to⟩

/-- Marker of a non-split re-typing command: every command of the first and
third loop nests has the literal `_nonsplit t:TDP36K a:is_inferred=` right
after the new type name. -/
def nonsplitMarker : String := "_nonsplit t:TDP36K a:is_inferred="

/-- Marker of a split re-typing command, analogously. -/
def splitMarker : String := "_split t:TDP36K a:is_inferred="

/-- Shape of a `chtype` re-typing command of the `-bram_types` enumeration:
`chtype -set TDP36K_<u><marker><v>` -- the new type is `TDP36K_`-prefixed
and carries the given split/non-split marker right after its name. -/
def IsChtypeRetype (marker : String) (c : String) : Prop :=
  ∃ u v, c = ("chtype -set TDP36K_" ++ u) ++ (marker ++ v)

/-- Configuration after `execute` for `-family qlf_k6n10f -bram_types` with
every other flag at its default. -/
def cfgBramTypes : Config := { clearFlags with family := "qlf_k6n10f", bramTypes := true }

/-- Configuration after `execute` with all defaults: family `qlf_k4n8`, whose
override forces `nosdff`. -/
def cfgDefaultK4n8 : Config := { clearFlags with nosdff := true }

/-- Configuration after `execute` for `-family qlf_k6n10 -no_dsp`. -/
def cfgK6n10NoDsp : Config := { clearFlags with family := "qlf_k6n10", nodsp := true }

/-- Configuration after `execute` for `-family qlf_k6n10` alone. -/
def cfgK6n10 : Config := { clearFlags with family := "qlf_k6n10" }

set_option maxRecDepth 40000

theorem str_nil_append (s : String) : "" ++ s = s := by
  apply String.ext
  simp [String.data_append]

theorem str_append_nil (s : String) : s ++ "" = s := by
  apply String.ext
  simp [String.data_append]

theorem length_flatten_map_const {α β : Type} (l : List α) (f : α → List β) (k : Nat)
    (h : ∀ a ∈ l, (f a).length = k) : (List.flatten (l.map f)).length = l.length * k := by
  induction l with
  | nil => simp
  | cons a as ih =>
    simp only [List.map_cons, List.flatten_cons, List.length_append, List.length_cons]
    rw [h a (by simp), ih (fun x hx => h x (by simp [hx]))]
    ring

theorem splitAtColon_none (l : List Char) (h : ∀ c ∈ l, c ≠ ':') : splitAtColon l = none := by
  induction l with
  | nil => rfl
  | cons c rest ih =>
    simp only [splitAtColon]
    rw [if_neg (h c (by simp)), ih (fun x hx => h x (by simp [hx]))]

theorem splitAtColon_before (f t : List Char) (h : ∀ c ∈ f, c ≠ ':') :
    splitAtColon (f ++ ':' :: t) = some (f, t) := by
  induction f with
  | nil => simp [splitAtColon]
  | cons c rest ih =>
    simp only [List.cons_append, splitAtColon, List.append_eq]
    rw [if_neg (h c (by simp)), ih (fun x hx => h x (by simp [hx]))]

/-- C10: when the `-run` argument has no colon, both window ends are that
name and exactly that checkpoint is selected; with a colon the window spans
from the part before it to the part after it; without `-run` both ends stay
empty, selecting every checkpoint. -/
theorem C10_run_window :
    (∀ s : String, (∀ c ∈ s.data, c ≠ ':') → parseRunArg s = (s, s)) ∧
    (∀ f t : String, (∀ c ∈ f.data, c ≠ ':') → parseRunArg (f ++ ":" ++ t) = (f, t)) ∧
    (∀ cfg : Config, ∀ s : String,
      parseLoop ["-run", s] cfg "" "" = ⟨cfg, (parseRunArg s).1, (parseRunArg s).2, []⟩) ∧
    (∀ cfg : Config, (parseLoop [] cfg "" "").run_from = "" ∧ (parseLoop [] cfg "" "").run_to = "") ∧
    (∀ s ∈ checkpointOrder, ∀ lbl ∈ checkpointOrder, inWindow s s lbl = (lbl == s)) ∧
    (∀ lbl ∈ checkpointOrder, inWindow ("") ("") lbl = true) := by
  refine ⟨?_, ?_, ?_, ?_, ?_, ?_⟩
  · intro s h
    simp [parseRunArg, splitAtColon_none s.data h]
  · intro f t h
    have hd : (f ++ ":" ++ t).data = f.data ++ ':' :: t.data := by
      simp [String.data_append]
    simp only [parseRunArg, hd, splitAtColon_before f.data t.data h]
  · intro cfg s
    rfl
  · intro cfg
    exact ⟨rfl, rfl⟩
  · decide
  · decide

theorem C10_run_window_witness :
    parseRunArg ("map_dsp") = ("map_dsp", "map_dsp") ∧
    parseRunArg ("prepare" ++ ":" ++ "map_bram") = ("prepare", "map_bram") ∧
    inWindow ("map_dsp") ("map_dsp") ("coarse") = (("coarse" : String) == "map_dsp") :=
  ⟨C10_run_window.1 ("map_dsp") (by decide),
   C10_run_window.2.1 ("prepare") ("map_bram") (by decide),
   C10_run_window.2.2.2.2.1 ("map_dsp") (by decide) ("coarse") (by decide)⟩

/-- C2: contrary to the claim, the `map_dsp` checkpoint body is executed even
when `map_dsp` lies outside the resume window: for family `qlf_k6n10` with
window `map_ffs:verilog` the run still issues `memory_dff` (the first
`map_dsp` body command).  The cause is the comma operator in the guard at
source line 297, which discards the `check_label` result. -/
theorem C2_map_dsp_escapes_window :
    inWindow ("map_ffs") ("verilog") ("map_dsp") = false ∧
    (script cfgK6n10 ("map_ffs") ("verilog")).contains ("memory_dff") = true := by
  decide

/-- C5: with the disable-DSP-inference toggle set, the `map_dsp` checkpoint
body issues no command, whatever the family and the other flags. -/
theorem C5_no_dsp (cfg : Config) (h : cfg.nodsp = true) : mapDspCmds cfg = [] := by
  simp [mapDspCmds, h]

theorem C5_no_dsp_witness : mapDspCmds cfgK6n10NoDsp = [] :=
  C5_no_dsp cfgK6n10NoDsp rfl

/-- Configuration after `execute` for `-family qlf_k6n10f` alone. -/
def cfgK6n10f : Config := { clearFlags with family := "qlf_k6n10f" }

/-- C4: for `qlf_k6n10f` (real mode, DSP inference enabled) the rule list
carries the wide 20x18 rule before the narrow 10x9 rule, the operand-width
bounds are strictly descending along the list, the per-rule `techmap`
application is immediately followed by the soft-multiplier re-typing, and
`ql_dsp_simd` and `ql_dsp_io_regs` close the checkpoint body
unconditionally. -/
theorem C4_dsp_rule_order (cfg : Config) (h1 : cfg.family = "qlf_k6n10f")
    (h2 : cfg.nodsp = false) :
    (dsp_rules.map fun r => (r.a_maxwidth, r.b_maxwidth, r.type)) =
      [(20, 18, "$__QL_MUL20X18"), (10, 9, "$__QL_MUL10X9")] ∧
    dsp_rules.Pairwise (fun r s => s.a_maxwidth < r.a_maxwidth ∧ s.b_maxwidth < r.b_maxwidth) ∧
    mapDspCmds cfg =
      ["wreduce t:$mul",
       "ql_dsp_macc" ++ cfg.use_dsp_cfg_params,
       "techmap -map +/mul2dsp.v -D DSP_A_MAXWIDTH=20 -D DSP_B_MAXWIDTH=18 -D DSP_A_MINWIDTH=11 -D DSP_B_MINWIDTH=10 -D DSP_NAME=$__QL_MUL20X18",
       "chtype -set $mul t:$__soft_mul",
       "techmap -map +/mul2dsp.v -D DSP_A_MAXWIDTH=10 -D DSP_B_MAXWIDTH=9 -D DSP_A_MINWIDTH=4 -D DSP_B_MINWIDTH=4 -D DSP_NAME=$__QL_MUL10X9",
       "chtype -set $mul t:$__soft_mul",
       (if cfg.use_dsp_cfg_params == "" then
         "techmap -map " ++ cfg.lib_path ++ "qlf_k6n10f" ++ "/dsp_map.v -D USE_DSP_CFG_PARAMS=0"
       else
         "techmap -map " ++ cfg.lib_path ++ "qlf_k6n10f" ++ "/dsp_map.v -D USE_DSP_CFG_PARAMS=1"),
       "ql_dsp_simd",
       "techmap -map " ++ cfg.lib_path ++ "qlf_k6n10f" ++ "/dsp_final_map.v",
       "ql_dsp_io_regs"] := by
  refine ⟨by decide, by decide, ?_⟩
  simp +decide [mapDspCmds, h1, h2, dsp_rules, dspRuleCmd]

theorem C4_dsp_rule_order_witness :
    mapDspCmds cfgK6n10f =
      ["wreduce t:$mul",
       "ql_dsp_macc" ++ cfgK6n10f.use_dsp_cfg_params,
       "techmap -map +/mul2dsp.v -D DSP_A_MAXWIDTH=20 -D DSP_B_MAXWIDTH=18 -D DSP_A_MINWIDTH=11 -D DSP_B_MINWIDTH=10 -D DSP_NAME=$__QL_MUL20X18",
       "chtype -set $mul t:$__soft_mul",
       "techmap -map +/mul2dsp.v -D DSP_A_MAXWIDTH=10 -D DSP_B_MAXWIDTH=9 -D DSP_A_MINWIDTH=4 -D DSP_B_MINWIDTH=4 -D DSP_NAME=$__QL_MUL10X9",
       "chtype -set $mul t:$__soft_mul",
       (if cfgK6n10f.use_dsp_cfg_params == "" then
         "techmap -map " ++ cfgK6n10f.lib_path ++ "qlf_k6n10f" ++ "/dsp_map.v -D USE_DSP_CFG_PARAMS=0"
       else
         "techmap -map " ++ cfgK6n10f.lib_path ++ "qlf_k6n10f" ++ "/dsp_map.v -D USE_DSP_CFG_PARAMS=1"),
       "ql_dsp_simd",
       "techmap -map " ++ cfgK6n10f.lib_path ++ "qlf_k6n10f" ++ "/dsp_final_map.v",
       "ql_dsp_io_regs"] :=
  (C4_dsp_rule_order cfgK6n10f rfl rfl).2.2

/-- C6: whatever the rest of the arguments, the selection state and the
scratch values, if the parsed family is outside the closed supported set the
entry controller fails with an error before any checkpoint command is
issued (the outcome carries no command list). -/
theorem C6_invalid_family (args : List String) (fullSel : Bool) (d : Int) (lp : Option String)
    (hfam : (parseLoop args (initialCfg lp) "" "").cfg.family ∉
      (["pp3", "qlf_k4n8", "qlf_k6n10", "qlf_k6n10f"] : List String)) :
    ∃ e, execute args fullSel d lp = Except.error e := by
  simp only [List.mem_cons, List.not_mem_nil, or_false, not_or] at hfam
  obtain ⟨n1, n2, n3, n4⟩ := hfam
  cases hrest : (parseLoop args (initialCfg lp) "" "").rest.isEmpty with
  | false =>
    exact ⟨"extra_args: unrecognized argument", by simp [execute, hrest]⟩
  | true =>
    cases fullSel with
    | false =>
      exact ⟨"This command only operates on fully selected designs!\n", by simp [execute, hrest]⟩
    | true =>
      refine ⟨"Invalid family specified: \x27" ++
        (parseLoop args (initialCfg lp) "" "").cfg.family ++ "\x27\n", ?_⟩
      simp [execute, hrest, bne_iff_ne, n1, n2, n3, n4]

theorem C6_invalid_family_witness :
    ∃ e, execute ["-family", "foo"] true 0 none = Except.error e :=
  C6_invalid_family ["-family", "foo"] true 0 none (by decide)

/-- C8: on every successful run, the resolved skip-synchronous-set/reset
toggle is the user-supplied one or-ed with the `qlf_k4n8` family override:
`qlf_k4n8` forces it on, every other family keeps the parsed value. -/
theorem C8_nosdff_override (args : List String) (fullSel : Bool) (d : Int) (lp : Option String)
    (o : ExecOutcome) (h : execute args fullSel d lp = Except.ok o) :
    o.cfg.nosdff =
      ((parseLoop args (initialCfg lp) "" "").cfg.nosdff ||
        ((parseLoop args (initialCfg lp) "" "").cfg.family == "qlf_k4n8")) := by
  simp only [execute] at h
  split at h
  · exact absurd h (by simp)
  · split at h
    · exact absurd h (by simp)
    · split at h
      · exact absurd h (by simp)
      · rw [Except.ok.injEq] at h
        subst h
        show (resolveCfg (parseLoop args (initialCfg lp) "" "").cfg).nosdff = _
        cases hb : ((parseLoop args (initialCfg lp) "" "").cfg.family == "qlf_k4n8") with
        | false => simp [resolveCfg, hb]
        | true => simp [resolveCfg, hb]

theorem C8_nosdff_override_witness :
    (((execute [] true 0 none).toOption).getD ⟨clearFlags, 0, false, []⟩).cfg.nosdff =
      ((parseLoop [] (initialCfg none) "" "").cfg.nosdff ||
        ((parseLoop [] (initialCfg none) "" "").cfg.family == "qlf_k4n8")) :=
  C8_nosdff_override [] true 0 none _ (by rfl)

/-- C9 (amended): the conservative `abc9.D` default of 500 is written, and
the delay-target warning emitted, exactly when the model-aware mapper is
enabled (`abc9`, i.e. no `-no_abc9`) and the parameter reads as unset
(`scratchpad_get_int` returns 0); otherwise the stored value is left
unchanged and no warning is emitted. -/
theorem C9_abc9_default (args : List String) (fullSel : Bool) (d : Int) (lp : Option String)
    (o : ExecOutcome) (h : execute args fullSel d lp = Except.ok o) :
    o.abc9D = (if o.cfg.abc9 && d == 0 then 500 else d) ∧
    o.warned = (o.cfg.abc9 && d == 0) := by
  simp only [execute] at h
  split at h
  · exact absurd h (by simp)
  · split at h
    · exact absurd h (by simp)
    · split at h
      · exact absurd h (by simp)
      · rw [Except.ok.injEq] at h
        subst h
        exact ⟨rfl, rfl⟩

theorem C9_abc9_default_witness :
    (((execute [] true 0 none).toOption).getD ⟨clearFlags, 0, false, []⟩).abc9D =
      (if (((execute [] true 0 none).toOption).getD ⟨clearFlags, 0, false, []⟩).cfg.abc9 && (0 : Int) == 0
        then 500 else (0 : Int)) ∧
    (((execute [] true 0 none).toOption).getD ⟨clearFlags, 0, false, []⟩).warned =
      ((((execute [] true 0 none).toOption).getD ⟨clearFlags, 0, false, []⟩).cfg.abc9 && (0 : Int) == 0) :=
  C9_abc9_default [] true 0 none _ (by rfl)

/-- C9, counterexample to the claim as stated: with `-no_abc9` and the
timing parameter unset (0), the run succeeds but the parameter stays unset
and no warning is emitted — the claimed unconditional default-assignment
and warning do not happen. -/
theorem C9_abc9_default_counterexample :
    (execute ["-no_abc9"] true 0 none).map (fun o => (o.abc9D, o.warned)) =
      Except.ok ((0 : Int), false) ∧ (0 : Int) ≠ 500 :=
  ⟨by rfl, by decide⟩

theorem bramNonsplitCmd_marked (a b : Nat) :
    IsChtypeRetype nonsplitMarker (bramNonsplitCmd a b) := by
  refine ⟨"BRAM_A_X" ++ toString a ++ "_B_X" ++ toString b,
    "0 %i a:is_fifo=0 %i a:port_a_dwidth=" ++ toString a ++
      " %i a:port_b_dwidth=" ++ toString b ++ " %i", ?_⟩
  apply String.ext
  simp [bramNonsplitCmd, nonsplitMarker, String.data_append, List.append_assoc, List.cons_append]

theorem fifoAsyncNonsplitCmd_marked (a b : Nat) :
    IsChtypeRetype nonsplitMarker (fifoAsyncNonsplitCmd a b) := by
  refine ⟨"FIFO_ASYNC_A_X" ++ toString a ++ "_B_X" ++ toString b,
    "0 %i a:is_fifo=1 %i a:sync_fifo=0 %i " ++
      "a:port_a_dwidth=" ++ toString a ++ " %i a:port_b_dwidth=" ++ toString b ++ " %i", ?_⟩
  apply String.ext
  simp [fifoAsyncNonsplitCmd, nonsplitMarker, String.data_append, List.append_assoc, List.cons_append]

theorem fifoSyncNonsplitCmd_marked (a b : Nat) :
    IsChtypeRetype nonsplitMarker (fifoSyncNonsplitCmd a b) := by
  refine ⟨"FIFO_SYNC_A_X" ++ toString a ++ "_B_X" ++ toString b,
    "0 %i a:is_fifo=1 %i a:sync_fifo=1 %i " ++
      "a:port_a_dwidth=" ++ toString a ++ " %i a:port_b_dwidth=" ++ toString b ++ " %i", ?_⟩
  apply String.ext
  simp [fifoSyncNonsplitCmd, nonsplitMarker, String.data_append, List.append_assoc, List.cons_append]

theorem bramInferredNonsplitCmd_marked (a b : Nat) :
    IsChtypeRetype nonsplitMarker (bramInferredNonsplitCmd a b) := by
  refine ⟨"BRAM_A_X" ++ toString a ++ "_B_X" ++ toString b,
    "1 %i a:port_a_width=" ++ toString a ++ " %i a:port_b_width=" ++ toString b ++ " %i", ?_⟩
  apply String.ext
  simp [bramInferredNonsplitCmd, nonsplitMarker, String.data_append, List.append_assoc, List.cons_append]

theorem bramSplitCmd_marked (a1 b1 a2 b2 : Nat) :
    IsChtypeRetype splitMarker (bramSplitCmd a1 b1 a2 b2) := by
  refine ⟨"BRAM_A1_X" ++ toString a1 ++ "_B1_X" ++ toString b1 ++ "_A2_X" ++ toString a2 ++
      "_B2_X" ++ toString b2,
    "0 %i a:is_split=1 %i a:is_fifo=0 %i a:port_a1_dwidth=" ++ toString a1 ++
      " %i a:port_b1_dwidth=" ++ toString b1 ++ " %i a:port_a2_dwidth=" ++ toString a2 ++
      " %i a:port_b2_dwidth=" ++ toString b2 ++ " %i", ?_⟩
  apply String.ext
  simp [bramSplitCmd, splitMarker, String.data_append, List.append_assoc, List.cons_append]

theorem fifoAsyncSplitCmd_marked (a1 b1 a2 b2 : Nat) :
    IsChtypeRetype splitMarker (fifoAsyncSplitCmd a1 b1 a2 b2) := by
  refine ⟨"FIFO_ASYNC_A1_X" ++ toString a1 ++ "_B1_X" ++ toString b1 ++ "_A2_X" ++ toString a2 ++
      "_B2_X" ++ toString b2,
    "0 %i a:is_split=1 %i a:is_fifo=1 %i a:sync_fifo=0 %i " ++
      "a:port_a1_dwidth=" ++ toString a1 ++ " %i a:port_b1_dwidth=" ++ toString b1 ++
      " %i a:port_a2_dwidth=" ++ toString a2 ++ " %i a:port_b2_dwidth=" ++ toString b2 ++ " %i", ?_⟩
  apply String.ext
  simp [fifoAsyncSplitCmd, splitMarker, String.data_append, List.append_assoc, List.cons_append]

theorem fifoSyncSplitCmd_marked (a1 b1 a2 b2 : Nat) :
    IsChtypeRetype splitMarker (fifoSyncSplitCmd a1 b1 a2 b2) := by
  refine ⟨"FIFO_SYNC_A1_X" ++ toString a1 ++ "_B1_X" ++ toString b1 ++ "_A2_X" ++ toString a2 ++
      "_B2_X" ++ toString b2,
    "0 %i a:is_split=1 %i a:is_fifo=1 %i a:sync_fifo=1 %i " ++
      "a:port_a1_dwidth=" ++ toString a1 ++ " %i a:port_b1_dwidth=" ++ toString b1 ++
      " %i a:port_a2_dwidth=" ++ toString a2 ++ " %i a:port_b2_dwidth=" ++ toString b2 ++ " %i", ?_⟩
  apply String.ext
  simp [fifoSyncSplitCmd, splitMarker, String.data_append, List.append_assoc, List.cons_append]

theorem bramInferredSplitCmd_marked (a1 b1 a2 b2 : Nat) :
    IsChtypeRetype splitMarker (bramInferredSplitCmd a1 b1 a2 b2) := by
  refine ⟨"BRAM_A1_X" ++ toString a1 ++ "_B1_X" ++ toString b1 ++ "_A2_X" ++ toString a2 ++
      "_B2_X" ++ toString b2,
    "1 %i a:port_a1_width=" ++ toString a1 ++ " %i a:port_b1_width=" ++ toString b1 ++
      " %i a:port_a2_width=" ++ toString a2 ++ " %i a:port_b2_width=" ++ toString b2 ++ " %i", ?_⟩
  apply String.ext
  simp [bramInferredSplitCmd, splitMarker, String.data_append, List.append_assoc, List.cons_append]

theorem mem_flatten_map {α β : Type} {l : List α} {f : α → List β} {c : β}
    (hc : c ∈ (l.map f).flatten) : ∃ a ∈ l, c ∈ f a := by
  rcases List.mem_flatten.mp hc with ⟨s, hs, hcs⟩
  rcases List.mem_map.mp hs with ⟨a, ha, rfl⟩
  exact ⟨a, ha, hcs⟩

theorem chtypeBlock1_length : chtypeBlock1.length = 108 := by
  rw [chtypeBlock1, length_flatten_map_const _ _ 18 ?ha]
  · rfl
  case ha =>
    intro a _
    rw [length_flatten_map_const _ _ 3 ?hb]
    · rfl
    case hb =>
      intro b _
      rfl

theorem chtypeBlock2_length : chtypeBlock2.length = 1875 := by
  rw [chtypeBlock2, length_flatten_map_const _ _ 375 ?h1]
  · rfl
  case h1 =>
    intro a1 _
    rw [length_flatten_map_const _ _ 75 ?h2]
    · rfl
    case h2 =>
      intro b1 _
      rw [length_flatten_map_const _ _ 15 ?h3]
      · rfl
      case h3 =>
        intro a2 _
        rw [length_flatten_map_const _ _ 3 ?h4]
        · rfl
        case h4 =>
          intro b2 _
          rfl

theorem chtypeBlock3_length : chtypeBlock3.length = 36 := by
  rw [chtypeBlock3, length_flatten_map_const _ _ 6 ?ha]
  · rfl
  case ha =>
    intro a _
    rw [length_flatten_map_const _ _ 1 ?hb]
    · rfl
    case hb =>
      intro b _
      rfl

theorem chtypeBlock4_length : chtypeBlock4.length = 625 := by
  rw [chtypeBlock4, length_flatten_map_const _ _ 125 ?h1]
  · rfl
  case h1 =>
    intro a1 _
    rw [length_flatten_map_const _ _ 25 ?h2]
    · rfl
    case h2 =>
      intro b1 _
      rw [length_flatten_map_const _ _ 5 ?h3]
      · rfl
      case h3 =>
        intro a2 _
        rw [length_flatten_map_const _ _ 1 ?h4]
        · rfl
        case h4 =>
          intro b2 _
          rfl

theorem chtypeBlock1_marked : ∀ c ∈ chtypeBlock1, IsChtypeRetype nonsplitMarker c := by
  intro c hc
  simp only [chtypeBlock1] at hc
  obtain ⟨a, ha, hc⟩ := mem_flatten_map hc
  obtain ⟨b, hb, hc⟩ := mem_flatten_map hc
  simp only [List.mem_cons, List.not_mem_nil, or_false] at hc
  rcases hc with rfl | rfl | rfl
  · exact bramNonsplitCmd_marked a b
  · exact fifoAsyncNonsplitCmd_marked a b
  · exact fifoSyncNonsplitCmd_marked a b

theorem chtypeBlock2_marked : ∀ c ∈ chtypeBlock2, IsChtypeRetype splitMarker c := by
  intro c hc
  simp only [chtypeBlock2] at hc
  obtain ⟨a1, ha1, hc⟩ := mem_flatten_map hc
  obtain ⟨b1, hb1, hc⟩ := mem_flatten_map hc
  obtain ⟨a2, ha2, hc⟩ := mem_flatten_map hc
  obtain ⟨b2, hb2, hc⟩ := mem_flatten_map hc
  simp only [List.mem_cons, List.not_mem_nil, or_false] at hc
  rcases hc with rfl | rfl | rfl
  · exact bramSplitCmd_marked a1 b1 a2 b2
  · exact fifoAsyncSplitCmd_marked a1 b1 a2 b2
  · exact fifoSyncSplitCmd_marked a1 b1 a2 b2

theorem chtypeBlock3_marked : ∀ c ∈ chtypeBlock3, IsChtypeRetype nonsplitMarker c := by
  intro c hc
  simp only [chtypeBlock3] at hc
  obtain ⟨a, ha, hc⟩ := mem_flatten_map hc
  obtain ⟨b, hb, hc⟩ := mem_flatten_map hc
  simp only [List.mem_cons, List.not_mem_nil, or_false] at hc
  rcases hc with rfl
  exact bramInferredNonsplitCmd_marked a b

theorem chtypeBlock4_marked : ∀ c ∈ chtypeBlock4, IsChtypeRetype splitMarker c := by
  intro c hc
  simp only [chtypeBlock4] at hc
  obtain ⟨a1, ha1, hc⟩ := mem_flatten_map hc
  obtain ⟨b1, hb1, hc⟩ := mem_flatten_map hc
  obtain ⟨a2, ha2, hc⟩ := mem_flatten_map hc
  obtain ⟨b2, hb2, hc⟩ := mem_flatten_map hc
  simp only [List.mem_cons, List.not_mem_nil, or_false] at hc
  rcases hc with rfl
  exact bramInferredSplitCmd_marked a1 b1 a2 b2

theorem mapBram_bramTypes_eq :
    mapBramCmds cfgBramTypes =
      ["memory_libmap -lib +/quicklogic/qlf_k6n10f/libmap_brams.txt",
       "ql_bram_merge",
       "techmap -map +/quicklogic/qlf_k6n10f/libmap_brams_map.v",
       "techmap -autoproc -map +/quicklogic/qlf_k6n10f/brams_map.v",
       "techmap -map +/quicklogic/qlf_k6n10f/brams_final_map.v"] ++
        (chtypeBlock1 ++ chtypeBlock2 ++ chtypeBlock3 ++ chtypeBlock4) := rfl

/-- C1 (amended): with `-bram_types` for `qlf_k6n10f`, the `map_bram`
checkpoint issues, after its five mapping commands, the deterministic
enumeration of `chtype` re-typing operations: 6*6*3 = 108 non-split variant
commands (plain BRAM, asynchronous FIFO, synchronous FIFO over widths
{1,2,4,9,18,36} on two ports) plus a further 6*6 = 36 inferred non-split
commands, and 5^4*3 = 1875 split variant commands (widths {1,2,4,9,18} on
four ports) plus 5^4 = 625 inferred split commands; every command of the
non-split blocks re-types to a `TDP36K_..._nonsplit` name and every command
of the split blocks to a `TDP36K_..._split` name, with the names built from
the widths per the `TDP36K_*` scheme (witnessed by the width-9 / width-18
asynchronous-FIFO example used in the spec). -/
theorem C1_bram_types_enumeration :
    mapBramCmds cfgBramTypes =
      ["memory_libmap -lib +/quicklogic/qlf_k6n10f/libmap_brams.txt",
       "ql_bram_merge",
       "techmap -map +/quicklogic/qlf_k6n10f/libmap_brams_map.v",
       "techmap -autoproc -map +/quicklogic/qlf_k6n10f/brams_map.v",
       "techmap -map +/quicklogic/qlf_k6n10f/brams_final_map.v"] ++
        (chtypeBlock1 ++ chtypeBlock2 ++ chtypeBlock3 ++ chtypeBlock4) ∧
    chtypeBlock1.length = 108 ∧ chtypeBlock2.length = 1875 ∧
    chtypeBlock3.length = 36 ∧ chtypeBlock4.length = 625 ∧
    (∀ c ∈ chtypeBlock1 ++ chtypeBlock3, IsChtypeRetype nonsplitMarker c) ∧
    (∀ c ∈ chtypeBlock2 ++ chtypeBlock4, IsChtypeRetype splitMarker c) ∧
    fifoAsyncNonsplitCmd 9 18 ∈ chtypeBlock1 ∧
    fifoAsyncNonsplitCmd 9 18 =
      "chtype -set TDP36K_FIFO_ASYNC_A_X9_B_X18_nonsplit t:TDP36K a:is_inferred=0 %i a:is_fifo=1 %i a:sync_fifo=0 %i a:port_a_dwidth=9 %i a:port_b_dwidth=18 %i" := by
  refine ⟨mapBram_bramTypes_eq, chtypeBlock1_length, chtypeBlock2_length,
    chtypeBlock3_length, chtypeBlock4_length, ?_, ?_, ?_, rfl⟩
  · intro c hc
    rcases List.mem_append.mp hc with h | h
    · exact chtypeBlock1_marked c h
    · exact chtypeBlock3_marked c h
  · intro c hc
    rcases List.mem_append.mp hc with h | h
    · exact chtypeBlock2_marked c h
    · exact chtypeBlock4_marked c h
  · have h1 : fifoAsyncNonsplitCmd 9 18 ∈
        [bramNonsplitCmd 9 18, fifoAsyncNonsplitCmd 9 18, fifoSyncNonsplitCmd 9 18] := by
      simp
    have h2 : [bramNonsplitCmd 9 18, fifoAsyncNonsplitCmd 9 18, fifoSyncNonsplitCmd 9 18] ∈
        (dwidths.map fun b => [bramNonsplitCmd 9 b, fifoAsyncNonsplitCmd 9 b, fifoSyncNonsplitCmd 9 b]) :=
      List.mem_map.mpr ⟨18, by decide, rfl⟩
    exact List.mem_flatten.mpr ⟨_, List.mem_map.mpr ⟨9, by decide, rfl⟩,
      List.mem_flatten.mpr ⟨_, h2, h1⟩⟩

theorem C1_bram_types_enumeration_witness :
    IsChtypeRetype nonsplitMarker (bramNonsplitCmd 1 1) :=
  C1_bram_types_enumeration.2.2.2.2.2.1 (bramNonsplitCmd 1 1) (by decide)

/-- C1, counterexample to the claim as stated: the enumeration issues
108 + 36 = 144 non-split re-typing commands, not 108, and
1875 + 625 = 2500 split re-typing commands, not 9375 (even the three-variant
split product alone is 5*5*5*5*3 = 1875, not 9375). -/
theorem C1_bram_types_counterexample :
    chtypeBlock1.length + chtypeBlock3.length = 144 ∧ (144 : Nat) ≠ 108 ∧
    chtypeBlock2.length + chtypeBlock4.length = 2500 ∧ (2500 : Nat) ≠ 9375 ∧
    chtypeBlock2.length ≠ 9375 := by
  refine ⟨?_, by decide, ?_, by decide, ?_⟩
  · rw [chtypeBlock1_length, chtypeBlock3_length]
  · rw [chtypeBlock2_length, chtypeBlock4_length]
  · rw [chtypeBlock2_length]
    decide

theorem noDFFFrag_empty (cfg : Config) (h1 : cfg.nosdff = false)
    (h2 : cfg.family ≠ "qlf_k4n8") : noDFFFrag cfg = "" := by
  simp [noDFFFrag, h1, beq_iff_eq, h2, str_append_nil]

theorem mapDspCmds_empty_of (cfg : Config)
    (h3 : (cfg.family = "qlf_k6n10" ∨ cfg.family = "qlf_k6n10f") → cfg.nodsp = true) :
    mapDspCmds cfg = [] := by
  by_cases hq : cfg.family = "qlf_k6n10"
  · simp +decide [mapDspCmds, hq, h3 (Or.inl hq)]
  · by_cases hq2 : cfg.family = "qlf_k6n10f"
    · simp +decide [mapDspCmds, hq2, h3 (Or.inr hq2)]
    · simp [mapDspCmds, beq_iff_eq, hq, hq2]

/-- C3 (amended): running `[begin..map_gates]` and then `[map_ffs..verilog]`
issues, in total, exactly the commands of one full `[begin..verilog]` run,
provided the derived flip-flop fragment is empty (the `nosdff` toggle is off
and the family is not `qlf_k4n8`, which forces it) and the `map_dsp` body is
silent in the resumed run (its family branch is inactive or DSP inference is
disabled) — the two conditions that the resume handling of the code actually
needs. -/
theorem C3_resume_equivalence (cfg : Config) (h1 : cfg.nosdff = false)
    (h2 : cfg.family ≠ "qlf_k4n8")
    (h3 : (cfg.family = "qlf_k6n10" ∨ cfg.family = "qlf_k6n10f") → cfg.nodsp = true) :
    script cfg ("") ("map_gates") ++ script cfg ("map_ffs") ("") = script cfg ("") ("") := by
  have hfrag := noDFFFrag_empty cfg h1 h2
  have hdsp := mapDspCmds_empty_of cfg h3
  simp only [script]
  simp +decide [hfrag, hdsp, str_nil_append, List.append_assoc]

theorem C3_resume_equivalence_witness :
    script cfgK6n10NoDsp ("") ("map_gates") ++ script cfgK6n10NoDsp ("map_ffs") ("") =
      script cfgK6n10NoDsp ("") ("") :=
  C3_resume_equivalence cfgK6n10NoDsp rfl (by decide) (fun _ => rfl)

/-- C3, counterexample to the claim as stated: for the default configuration
(family `qlf_k4n8`, whose override forces `nosdff`, hence a non-empty derived
fragment), the split run issues a different command sequence than the full
run — the resumed `[map_ffs..verilog]` invocation recomputes the fragment as
empty because the `prepare` checkpoint (which appends it) is outside its
window. -/
theorem C3_resume_equivalence_counterexample :
    script cfgDefaultK4n8 ("") ("map_gates") ++ script cfgDefaultK4n8 ("map_ffs") ("") ≠
      script cfgDefaultK4n8 ("") ("") := by
  decide

/-- C7 (amended): in real mode each emission checkpoint issues its writer
exactly when its output path is non-empty, the `edif` checkpoint first runs
the net-splitting and equation-extraction passes, and the `edif` writer
receives the stored `currmodule` field of the pass — which `clear_flags`
empties and nothing ever assigns, so the module argument of the writer is the empty
string (note the double space), not the resolved top-module name. -/
theorem C7_emission_checkpoints (cfg : Config) (hm : cfg.currmodule = "") :
    ∃ pre, script cfg ("") ("") =
      pre ++
        ((if cfg.blif_file != "" then ["write_blif -param " ++ cfg.blif_file] else []) ++
          ((if cfg.edif_file != "" then
              ["splitnets -ports -format ()", "quicklogic_eqn",
               "write_ql_edif -nogndvcc -attrprop -pvector par  " ++ cfg.edif_file]
            else []) ++
            (if cfg.verilog_file != "" then
              ["write_verilog -noattr -nohex " ++ cfg.verilog_file] else []))) := by
  have hw : "write_ql_edif -nogndvcc -attrprop -pvector par " ++ cfg.currmodule ++ " " ++ cfg.edif_file =
      "write_ql_edif -nogndvcc -attrprop -pvector par  " ++ cfg.edif_file := by
    rw [hm, str_append_nil]
    exact rfl
  refine ⟨beginCmds cfg ++ prepareCmds cfg ("" ++ noDFFFrag cfg) ++ mapDspCmds cfg ++
    coarseCmds ("" ++ noDFFFrag cfg) ++
    (if (cfg.family == "qlf_k6n10" || cfg.family == "qlf_k6n10f" || cfg.family == "pp3") &&
        cfg.inferBram then mapBramCmds cfg else []) ++
    mapFframCmds ("" ++ noDFFFrag cfg) ++ mapGatesCmds cfg ("" ++ noDFFFrag cfg) ++
    mapFfsCmds cfg ("" ++ noDFFFrag cfg) ++ mapLutsCmds cfg ++
    (if cfg.family == "qlf_k6n10" || cfg.family == "pp3" then mapCellsCmds cfg else []) ++
    checkCmds ++ (if cfg.family == "pp3" then iomapCmds else []) ++ finalizeCmds cfg, ?_⟩
  simp only [script]
  simp +decide [blifCmds, edifCmds, verilogCmds, hw, List.append_assoc]

theorem C7_emission_checkpoints_witness :
    ∃ pre, script cfgDefaultK4n8 ("") ("") =
      pre ++
        ((if cfgDefaultK4n8.blif_file != "" then
            ["write_blif -param " ++ cfgDefaultK4n8.blif_file] else []) ++
          ((if cfgDefaultK4n8.edif_file != "" then
              ["splitnets -ports -format ()", "quicklogic_eqn",
               "write_ql_edif -nogndvcc -attrprop -pvector par  " ++ cfgDefaultK4n8.edif_file]
            else []) ++
            (if cfgDefaultK4n8.verilog_file != "" then
              ["write_verilog -noattr -nohex " ++ cfgDefaultK4n8.verilog_file] else []))) :=
  C7_emission_checkpoints cfgDefaultK4n8 rfl

/-- C7, counterexample to the claim as stated: with `-top foo -edif out.edif`
the resolved top module selector is `-top foo`, yet the `edif` writer command
carries an empty module argument (double space before the file name), not the
top-module name `foo`. -/
theorem C7_emission_checkpoints_counterexample :
    (execute ["-top", "foo", "-edif", "out.edif"] true 500 none).map
        (fun o => (o.cfg.top_opt,
          o.cmds.contains ("write_ql_edif -nogndvcc -attrprop -pvector par foo out.edif"),
          o.cmds.contains ("write_ql_edif -nogndvcc -attrprop -pvector par  out.edif"))) =
      Except.ok ("-top foo", false, true) := by
  rfl
